import Mathlib

/-!
Verification development for the dental-ai-chatbot repository.

The definitions below are a shallow embedding of the negotiation core:
the PostgreSQL schema (database/schema.sql), the Express handlers
POST /api/chatbot/message and POST /api/chatbot/confirm (backend server),
the helper functions upsertUser / ensureSession / logMessage, and the
frontend proposal reconstruction (confirmAppointment / declineAppointment /
showConfirmationBar in the React app).  Timestamps are modelled as Nat
instants; JavaScript Date parsing is abstracted as a `parse` parameter of
type String to Option Nat, shared by the validation step and the datastore
(both parse the same string).  JSONB metadata is modelled as a record of
the optional fields the handlers read and write.
-/

/-- Appointment status enum from the schema CHECK constraint. -/
inductive ApptStatus
  | pending
  | confirmed
  | completed
  | cancelled
  | no_show
deriving DecidableEq, Repr

/-- A row of the appointments table (the columns the handlers touch). -/
structure Appointment where
  id : Nat
  user_id : Nat
  scheduled_at : Nat
  status : ApptStatus
  notes : String
deriving DecidableEq, Repr

/-- The JSONB meta column of chat_messages: the optional fields written by
the message and confirm handlers. -/
structure MsgMeta where
  appointment_candidate : Option String := none
  intent : Option String := none
  needs_confirmation : Option Bool := none
  action : Option String := none
  proposed_time : Option String := none
  appointment_id : Option Nat := none
  status : Option String := none
deriving DecidableEq, Repr

/-- A row of the chat_messages table. -/
structure ChatMessage where
  user_id : Nat
  session_token : String
  role : String
  content : String
  meta : MsgMeta
deriving DecidableEq, Repr

/-- The datastore state: users as (id, email) pairs, chat sessions as
(user_id, session_token) pairs, the appointments table, and the ordered
chat_messages table. -/
structure DB where
  users : List (Nat × String)
  next_user_id : Nat
  sessions : List (Nat × String)
  appointments : List Appointment
  next_appt_id : Nat
  chat_messages : List ChatMessage
deriving DecidableEq, Repr

/-- An empty datastore. -/
def emptyDB : DB :=
  { users := [], next_user_id := 1, sessions := [], appointments := [],
    next_appt_id := 1, chat_messages := [] }

/-- Demo email derivation from upsertUser. -/
def demoEmail (sub : String) : String := sub ++ "@demo.local"

/-- upsertUser: INSERT ... ON CONFLICT (email) DO UPDATE, RETURNING id.
For an existing email the row id is returned (the name update writes the
same demo name back and is not modelled); otherwise a fresh user row is
inserted. -/
def upsertUser (db : DB) (sub : String) : Nat × DB :=
  match db.users.find? (fun u => u.2 == demoEmail sub) with
  | some u => (u.1, db)
  | none =>
      (db.next_user_id,
       { db with users := db.users ++ [(db.next_user_id, demoEmail sub)],
                 next_user_id := db.next_user_id + 1 })

/-- ensureSession: look the session token up, create the session row when
absent; with no token the handler skips session creation. -/
def ensureSession (db : DB) (userId : Nat) (sessionToken : Option String) : DB :=
  match sessionToken with
  | none => db
  | some tok =>
      if db.sessions.any (fun s => s.2 == tok) then db
      else { db with sessions := db.sessions ++ [(userId, tok)] }

/-- logMessage: INSERT INTO chat_messages, with the catch block that
swallows the failure (the source comment reads: do not throw, message
logging should not break the main flow).  The `ok` flag models whether the
underlying INSERT succeeded; on failure the row is simply absent. -/
def logMessage (db : DB) (ok : Bool) (msg : ChatMessage) : DB :=
  if ok then { db with chat_messages := db.chat_messages ++ [msg] } else db

/-- The confirmed rows at instant `t` (the rows seen by the conflict
pre-check SELECT and protected by uniq_confirmed_appointments). -/
def confirmedAt (db : DB) (t : Nat) : List Appointment :=
  db.appointments.filter (fun a => a.scheduled_at == t && a.status == ApptStatus.confirmed)

/-- Number of confirmed rows at instant `t`. -/
def countConfirmedAt (db : DB) (t : Nat) : Nat := (confirmedAt db t).length

/-- rowCount > 0 of the conflict pre-check SELECT. -/
def existsConfirmedAt (db : DB) (t : Nat) : Bool := decide (0 < countConfirmedAt db t)

/-- The confirmed subset of the appointments table. -/
def confirmedOnly (db : DB) : List Appointment :=
  db.appointments.filter (fun a => a.status == ApptStatus.confirmed)

/-- The invariant of uniq_confirmed_appointments: scheduled_at values of
confirmed appointments are pairwise distinct. -/
def confirmedDistinct (db : DB) : Prop :=
  (confirmedOnly db).Pairwise (fun a b => a.scheduled_at ≠ b.scheduled_at)

/-- INSERT INTO appointments ... status confirmed ... RETURNING. -/
def insertConfirmed (db : DB) (userId : Nat) (t : Nat) : Appointment × DB :=
  let a : Appointment :=
    { id := db.next_appt_id, user_id := userId, scheduled_at := t,
      status := ApptStatus.confirmed, notes := "Booked via AI chatbot" }
  (a, { db with appointments := db.appointments ++ [a],
                next_appt_id := db.next_appt_id + 1 })

/-- The assistant chat message appended by the decline branch of the
confirm handler (the contraction in the source text is spelled out). -/
def declineChatMessage (userId : Nat) (tok : String) (proposed : String) : ChatMessage :=
  { user_id := userId, session_token := tok, role := "assistant",
    content := "Appointment declined. Please let me know when you would like to schedule instead.",
    meta := { action := some ("declined"), proposed_time := some proposed } }

/-- The assistant chat message appended after a successful confirmation
(the interpolated locale time of the source string is not modelled). -/
def confirmChatMessage (userId : Nat) (tok : String) (a : Appointment) : ChatMessage :=
  { user_id := userId, session_token := tok, role := "assistant",
    content := "Appointment confirmed.",
    meta := { appointment_id := some a.id, status := some ("confirmed"),
              action := some ("confirmed") } }

/-- Operations the confirm handler performs on the appointments table,
recorded as a trace: the conflict pre-check SELECT and the INSERT. -/
inductive ApptOp
  | selectConfirmedAt (t : Nat)
  | insertAppt (t : Nat)
deriving DecidableEq, Repr

/-- Outcome of POST /api/chatbot/confirm. -/
inductive ConfirmResult
  | badRequest (msg : String)
  | declined
  | conflict
  | confirmedOk (a : Appointment)
  | serverError
deriving DecidableEq, Repr

/-- HTTP status of each confirm outcome, from the res.status calls. -/
def ConfirmResult.httpStatus : ConfirmResult → Nat
  | .badRequest _ => 400
  | .declined => 200
  | .conflict => 409
  | .confirmedOk _ => 200
  | .serverError => 500

/-- Request body of POST /api/chatbot/confirm.  Absent JSON fields are
`none`; the JavaScript falsiness checks also treat the empty string as
missing. -/
structure ConfirmReq where
  session_id : Option String
  scheduled_at : Option String
  confirm : Bool
deriving DecidableEq, Repr

/-- Result of a confirm request: HTTP outcome, datastore after the
request, and the trace of appointments-table operations performed. -/
structure ConfirmOut where
  result : ConfirmResult
  db : DB
  trace : List ApptOp
deriving Repr

/-- The validation prefix of the confirm handler: required-fields check,
Date parse check, and the strictly-in-the-future check, in source order.
Returns the parsed instant on success. -/
def confirmValidate (parse : String → Option Nat) (now : Nat) (req : ConfirmReq) :
    Except String Nat :=
  if (req.session_id.getD "") = "" ∨ (req.scheduled_at.getD "") = "" then
    Except.error ("Both session_id and scheduled_at are required")
  else
    match parse (req.scheduled_at.getD "") with
    | none => Except.error ("scheduled_at must be a valid ISO8601 datetime string")
    | some t =>
        if t ≤ now then Except.error ("Appointment time must be in the future")
        else Except.ok t

/-- POST /api/chatbot/confirm: validation, upsertUser, ensureSession, then
either the decline branch (logMessage only) or the conflict pre-check
SELECT followed by the INSERT of a confirmed appointment and the
confirmation logMessage.  `appendOk` models whether the chat-message
INSERT inside logMessage succeeds (logMessage swallows its failure). -/
def confirmHandler (parse : String → Option Nat) (now : Nat) (appendOk : Bool)
    (sub : String) (req : ConfirmReq) (db : DB) : ConfirmOut :=
  match confirmValidate parse now req with
  | Except.error m => { result := ConfirmResult.badRequest m, db := db, trace := [] }
  | Except.ok t =>
      let up := upsertUser db sub
      let userId := up.1
      let db2 := ensureSession up.2 userId req.session_id
      if req.confirm = false then
        let db3 := logMessage db2 appendOk
          (declineChatMessage userId (req.session_id.getD "") (req.scheduled_at.getD ""))
        { result := ConfirmResult.declined, db := db3, trace := [] }
      else
        if existsConfirmedAt db2 t then
          { result := ConfirmResult.conflict, db := db2,
            trace := [ApptOp.selectConfirmedAt t] }
        else
          let ins := insertConfirmed db2 userId t
          let db4 := logMessage ins.2 appendOk
            (confirmChatMessage userId (req.session_id.getD "") ins.1)
          { result := ConfirmResult.confirmedOk ins.1, db := db4,
            trace := [ApptOp.selectConfirmedAt t, ApptOp.insertAppt t] }

/-- The JSON body returned by the Python service /simulate endpoint, with
the optional fields the message handler extracts (the nested data
fallback of the source is flattened into one record of optionals). -/
structure PyData where
  reply : Option String
  appointment_candidate : Option String
  intent : Option String
  needs_confirmation : Option Bool
deriving DecidableEq, Repr

/-- Outcome of POST /api/chatbot/message. -/
inductive MsgResult
  | badRequest (m : String)
  | ok (data : PyData)
  | serverError
deriving DecidableEq, Repr

/-- HTTP status of each message outcome. -/
def MsgResult.httpStatus : MsgResult → Nat
  | .badRequest _ => 400
  | .ok _ => 200
  | .serverError => 500

/-- Request body of POST /api/chatbot/message. -/
structure MsgReq where
  message : Option String
  session_id : Option String
deriving DecidableEq, Repr

/-- Whitespace trimming of the message (JavaScript String.prototype.trim),
written over the character list so that it evaluates by kernel
reduction. -/
def strTrim (s : String) : String :=
  String.mk (((s.data.dropWhile Char.isWhitespace).reverse.dropWhile Char.isWhitespace).reverse)

/-- The metadata the message handler attaches to the assistant turn:
candidate plus intent plus needs_confirmation when a candidate is
present, intent alone otherwise (with the source defaults). -/
def assistantMeta (d : PyData) : MsgMeta :=
  match d.appointment_candidate with
  | some c =>
      { appointment_candidate := some c,
        intent := some (d.intent.getD "chat"),
        needs_confirmation := some (d.needs_confirmation.getD false) }
  | none => { intent := some (d.intent.getD "chat") }

/-- POST /api/chatbot/message: non-empty-message validation, upsertUser,
ensureSession, logMessage of the user turn, the fetch to the Python
service (`pyResp`; an error models both a thrown fetch and a non-ok
response, caught as a 500), and on success the logMessage of the
assistant turn and the ok response.  `userOk` and `asstOk` model the
success of the two chat-message INSERTs inside logMessage. -/
def messageHandler (pyResp : Except Unit PyData) (userOk asstOk : Bool)
    (sub : String) (req : MsgReq) (db : DB) : MsgResult × DB :=
  let msg := strTrim (req.message.getD "")
  if msg = "" then
    (MsgResult.badRequest ("Message is required and must be a non-empty string"), db)
  else
    let up := upsertUser db sub
    let userId := up.1
    let db2 := ensureSession up.2 userId req.session_id
    let db3 := logMessage db2 userOk
      { user_id := userId, session_token := req.session_id.getD "", role := "user",
        content := msg, meta := {} }
    match pyResp with
    | Except.error _ => (MsgResult.serverError, db3)
    | Except.ok data =>
        let reply := data.reply.getD "I apologize, I could not process that request."
        let db4 := logMessage db3 asstOk
          { user_id := userId, session_token := req.session_id.getD "",
            role := "assistant", content := reply, meta := assistantMeta data }
        (MsgResult.ok data, db4)

/-- An operation of the negotiation core at the transport boundary: one
processed chat message or one confirm/decline request, with all the
request-scoped inputs (Python outcome, append outcomes, parse function,
clock). -/
inductive CoreOp
  | msg (pyResp : Except Unit PyData) (userOk asstOk : Bool) (sub : String) (req : MsgReq)
  | confirmOp (parse : String → Option Nat) (now : Nat) (appendOk : Bool)
      (sub : String) (req : ConfirmReq)

/-- Effect of a core operation on the datastore. -/
def applyCoreOp : CoreOp → DB → DB
  | CoreOp.msg p u a s r, db => (messageHandler p u a s r db).2
  | CoreOp.confirmOp pr n ok s r, db => (confirmHandler pr n ok s r db).db

/-- Datastore states reachable from the empty datastore by sequences of
core operations. -/
inductive ReachableDB : DB → Prop
  | init : ReachableDB emptyDB
  | step (op : CoreOp) (db : DB) : ReachableDB db → ReachableDB (applyCoreOp op db)

/-!
Interleaving model of concurrent confirm requests for one instant `t`.
A request that passed validation performs two datastore round trips,
each atomic at the datastore: the conflict pre-check SELECT, then the
INSERT.  The INSERT is guarded by uniq_confirmed_appointments: with a
confirmed row already present at `t` it raises a uniqueness violation,
which the generic catch of the handler turns into the 500 response.
A scheduler interleaves the steps of the requests arbitrarily.
-/

/-- Phase of one in-flight confirm request: before the pre-check, after a
clean pre-check, or finished with one of the three outcomes. -/
inductive ReqPhase
  | start
  | checked
  | doneConfirmed
  | doneConflict
  | doneServerError
deriving DecidableEq, Repr

/-- Shared datastore plus the phase of each concurrent request. -/
structure RaceState where
  db : DB
  reqs : List ReqPhase
deriving DecidableEq, Repr

/-- One atomic step of request `i`: its pre-check if it has not run, else
its INSERT.  A finished request, or an index out of range, is a no-op.
Request `i` books as user `i` (the sessions differ per request). -/
def raceStep (t : Nat) (s : RaceState) (i : Nat) : RaceState :=
  match s.reqs[i]? with
  | none => s
  | some ReqPhase.start =>
      if existsConfirmedAt s.db t then
        { s with reqs := s.reqs.set i ReqPhase.doneConflict }
      else
        { s with reqs := s.reqs.set i ReqPhase.checked }
  | some ReqPhase.checked =>
      if existsConfirmedAt s.db t then
        { s with reqs := s.reqs.set i ReqPhase.doneServerError }
      else
        { db := (insertConfirmed s.db i t).2, reqs := s.reqs.set i ReqPhase.doneConfirmed }
  | some _ => s

/-- Run a schedule (a list of request indices) over the race state. -/
def runRace (t : Nat) : RaceState → List Nat → RaceState
  | s, [] => s
  | s, i :: rest => runRace t (raceStep t s i) rest

/-- Initial phases for n concurrent requests. -/
def allStart (n : Nat) : List ReqPhase := List.replicate n ReqPhase.start

/-- Whether a request has finished. -/
def isDone : ReqPhase → Bool
  | ReqPhase.doneConfirmed => true
  | ReqPhase.doneConflict => true
  | ReqPhase.doneServerError => true
  | _ => false

/-- Invariant of the race: the number of confirmed rows at `t` equals the
number of requests that finished confirmed, is at most one, and is at
least one as soon as any request finished with conflict or a server
error. -/
structure RaceInv (t : Nat) (s : RaceState) : Prop where
  count_eq : countConfirmedAt s.db t = s.reqs.countP (fun ph => ph == ReqPhase.doneConfirmed)
  count_le : countConfirmedAt s.db t ≤ 1
  losers : (∃ ph ∈ s.reqs, ph = ReqPhase.doneConflict ∨ ph = ReqPhase.doneServerError) →
      1 ≤ countConfirmedAt s.db t

/-!
Frontend model (React app): messages as rendered by the client, the
backward scan of confirmAppointment / declineAppointment that
reconstructs the pending proposal, and the confirmation bar predicate.
-/

/-- The meta object attached to a frontend chat message (the fields the
app reads). -/
structure UiMeta where
  appointment_candidate : Option String := none
  needs_confirmation : Option Bool := none
  declined : Option Bool := none
deriving DecidableEq, Repr

/-- A frontend chat message: role, content and optional meta. -/
structure UiMessage where
  role : String
  content : String
  meta : Option UiMeta
deriving DecidableEq, Repr

/-- The predicate of the backward scan in confirmAppointment and
declineAppointment: an assistant message whose meta carries an
appointment candidate. -/
def hasCandidate (m : UiMessage) : Bool :=
  m.role == "assistant" &&
    (match m.meta with
     | some mt => mt.appointment_candidate.isSome
     | none => false)

/-- The pending-proposal reconstruction of the frontend: reverse the
message list and take the first assistant message carrying an
appointment candidate. -/
def latestProposal (messages : List UiMessage) : Option UiMessage :=
  messages.reverse.find? hasCandidate

/-- Modelled from the spec: the tie-break rule of section 4.2 defines the
pending proposal as the candidate attached to the most recent assistant
turn carrying needs_confirmation = true.  Stated here for comparison with
`latestProposal`, the reconstruction the code actually performs. -/
def pendingProposalSpec (messages : List UiMessage) : Option UiMessage :=
  messages.reverse.find? (fun m =>
    m.role == "assistant" &&
      (match m.meta with
       | some mt => mt.needs_confirmation == some true
       | none => false))

/-- showConfirmationBar: the confirm and decline buttons are shown exactly
when the last message is an assistant message with truthy
needs_confirmation and a candidate. -/
def showConfirmationBar (messages : List UiMessage) : Bool :=
  match messages.getLast? with
  | some m =>
      m.role == "assistant" &&
        (match m.meta with
         | some mt => mt.needs_confirmation == some true && mt.appointment_candidate.isSome
         | none => false)
  | none => false

/-- The assistant message the frontend appends after a successful decline
(declineAppointment); its meta carries no appointment candidate. -/
def frontendDeclineMessage : UiMessage :=
  { role := "assistant",
    content := "No problem! When would be a better time for your appointment?",
    meta := some { declined := some true } }

/-- The transcript after processing a decline: the decline turn is
appended, earlier turns are untouched. -/
def declineTranscript (h : List UiMessage) : List UiMessage :=
  h ++ [frontendDeclineMessage]

/-!
Extraction model.  The Python service source file is absent from the
repository; its behaviour is modelled from the spec (sections 4.1 and 7)
and the excerpt reproduced in the architecture document.
-/

/-- The ExtractionResult value object of the spec.  Confidence is a float
in the source; it is modelled as a percentage to stay in executable
arithmetic and plays no role in the claims. -/
structure ExtractionResult where
  reply : String
  intent : String
  appointment_candidate : Option String
  needs_confirmation : Bool
  confidence_percent : Nat
  processing_mode : String
deriving DecidableEq, Repr

/-- Modelled from the spec: the Python service function
langchain_extract_and_reply (its source file is missing from the
repository; the spec and the architecture document describe it as a try
block around the generative backend whose except block returns the
deterministic parse).  `naive` is the deterministic strategy,
`llmOutcome` the outcome of the generative backend call; a backend
failure is caught and answered with the fallback result, so the caller
never receives an error. -/
def langchain_extract_and_reply (naive : String → ExtractionResult)
    (llmOutcome : Except String ExtractionResult) (message : String) :
    Except String ExtractionResult :=
  match llmOutcome with
  | Except.ok r => Except.ok { r with processing_mode := "langchain" }
  | Except.error _ => Except.ok (naive message)

/-- A demo parse function for concrete witnesses: one fixed ISO string
parses to instant 100. -/
def parseDemo : String → Option Nat :=
  fun s => if s = "2099-01-05T14:00:00Z" then some 100 else none

/-- A concrete proposal turn used by the frontend counterexamples. -/
def proposalMsgA : UiMessage :=
  { role := "assistant", content := "How about Monday 2pm?",
    meta := some { appointment_candidate := some ("2099-01-05T14:00:00Z"),
                   needs_confirmation := some true } }

/-- A concrete assistant turn carrying a candidate with
needs_confirmation false. -/
def candidateMsgB : UiMessage :=
  { role := "assistant", content := "Noted a possible slot.",
    meta := some { appointment_candidate := some ("2099-01-06T15:00:00Z"),
                   needs_confirmation := some false } }

/-- A concrete Python service response for concrete inputs. -/
def pyDataDemo : PyData :=
  { reply := some ("Sure, how about Monday 2pm?"), appointment_candidate := none,
    intent := some ("chat"), needs_confirmation := none }

/-- A concrete message request. -/
def msgReqDemo : MsgReq :=
  { message := some ("book me Monday"), session_id := some ("sess-1") }

/-- A concrete valid confirmation request for instant 100. -/
def confirmReqDemo : ConfirmReq :=
  { session_id := some ("sess-1"), scheduled_at := some ("2099-01-05T14:00:00Z"),
    confirm := true }

/-- The same request as a decline. -/
def declineReqDemo : ConfirmReq :=
  { session_id := some ("sess-1"), scheduled_at := some ("2099-01-05T14:00:00Z"),
    confirm := false }

/-- A datastore that already holds the demo user and the demo session. -/
def dbWithUserSession : DB :=
  { users := [(1, "user_1@demo.local")], next_user_id := 2,
    sessions := [(1, "sess-1")], appointments := [], next_appt_id := 1,
    chat_messages := [] }

/-- A datastore that already holds a confirmed appointment at instant
100. -/
def dbWithConfirmed100 : DB :=
  { users := [(1, "user_1@demo.local")], next_user_id := 2,
    sessions := [(1, "sess-1")],
    appointments := [{ id := 1, user_id := 1, scheduled_at := 100,
                       status := ApptStatus.confirmed, notes := "Booked via AI chatbot" }],
    next_appt_id := 2, chat_messages := [] }

/-!
Fallible-query model of the two handlers.  Every handler body in the
source sits inside a try/catch whose catch answers the generic 500
response, so any awaited query can end the request with a server error.
The plain handlers above are the all-queries-succeed restriction; the
variants below make each awaited query fallible.
-/

/-- Per-request outcomes of the awaited datastore queries of a handler
(the fetch to the Python service and the chat appends inside logMessage
are modelled separately).  A false field models the corresponding query
throwing; the try/catch of the handler turns the throw into the generic
500 response.  A query that throws performs no datastore change. -/
structure QueryOutcomes where
  upsertOk : Bool := true
  sessionOk : Bool := true
  selectOk : Bool := true
  insertOk : Bool := true
deriving DecidableEq, Repr

/-- POST /api/chatbot/confirm with fallible awaited queries: identical to
confirmHandler except that the user upsert, the session
lookup/creation, the conflict pre-check SELECT and the appointment
INSERT may each throw (their flag in `q` false), in which case the catch
answers the generic 500 server error.  With every query succeeding this
coincides with confirmHandler (a conjunct of the claim C8 theorem). -/
def confirmHandlerTry (parse : String → Option Nat) (now : Nat) (q : QueryOutcomes)
    (appendOk : Bool) (sub : String) (req : ConfirmReq) (db : DB) : ConfirmOut :=
  match confirmValidate parse now req with
  | Except.error m => { result := ConfirmResult.badRequest m, db := db, trace := [] }
  | Except.ok t =>
      if q.upsertOk = false then
        { result := ConfirmResult.serverError, db := db, trace := [] }
      else
        let up := upsertUser db sub
        let userId := up.1
        if q.sessionOk = false then
          { result := ConfirmResult.serverError, db := up.2, trace := [] }
        else
          let db2 := ensureSession up.2 userId req.session_id
          if req.confirm = false then
            let db3 := logMessage db2 appendOk
              (declineChatMessage userId (req.session_id.getD "") (req.scheduled_at.getD ""))
            { result := ConfirmResult.declined, db := db3, trace := [] }
          else
            if q.selectOk = false then
              { result := ConfirmResult.serverError, db := db2, trace := [] }
            else
              if existsConfirmedAt db2 t then
                { result := ConfirmResult.conflict, db := db2,
                  trace := [ApptOp.selectConfirmedAt t] }
              else
                if q.insertOk = false then
                  { result := ConfirmResult.serverError, db := db2,
                    trace := [ApptOp.selectConfirmedAt t] }
                else
                  let ins := insertConfirmed db2 userId t
                  let db4 := logMessage ins.2 appendOk
                    (confirmChatMessage userId (req.session_id.getD "") ins.1)
                  { result := ConfirmResult.confirmedOk ins.1, db := db4,
                    trace := [ApptOp.selectConfirmedAt t, ApptOp.insertAppt t] }

/-- POST /api/chatbot/message with fallible awaited queries: identical to
messageHandler except that the user upsert and the session
lookup/creation may throw, in which case the catch answers the generic
500 error (the logMessage appends stay swallowed, the Python fetch stays
`pyResp`).  With every query succeeding this coincides with
messageHandler (a conjunct of the claim C8 theorem). -/
def messageHandlerTry (pyResp : Except Unit PyData) (q : QueryOutcomes)
    (userOk asstOk : Bool) (sub : String) (req : MsgReq) (db : DB) : MsgResult × DB :=
  let msg := strTrim (req.message.getD "")
  if msg = "" then
    (MsgResult.badRequest ("Message is required and must be a non-empty string"), db)
  else
    if q.upsertOk = false then (MsgResult.serverError, db)
    else
      let up := upsertUser db sub
      let userId := up.1
      if q.sessionOk = false then (MsgResult.serverError, up.2)
      else
        let db2 := ensureSession up.2 userId req.session_id
        let db3 := logMessage db2 userOk
          { user_id := userId, session_token := req.session_id.getD "", role := "user",
            content := msg, meta := {} }
        match pyResp with
        | Except.error _ => (MsgResult.serverError, db3)
        | Except.ok data =>
            let reply := data.reply.getD "I apologize, I could not process that request."
            let db4 := logMessage db3 asstOk
              { user_id := userId, session_token := req.session_id.getD "",
                role := "assistant", content := reply, meta := assistantMeta data }
            (MsgResult.ok data, db4)

/-!
Helper lemmas (shared by several claim theorems).
-/

theorem upsertUser_appointments (db : DB) (sub : String) :
    (upsertUser db sub).2.appointments = db.appointments := by
  unfold upsertUser
  cases db.users.find? (fun u => u.2 == demoEmail sub) <;> rfl

theorem upsertUser_chat_messages (db : DB) (sub : String) :
    (upsertUser db sub).2.chat_messages = db.chat_messages := by
  unfold upsertUser
  cases db.users.find? (fun u => u.2 == demoEmail sub) <;> rfl

theorem ensureSession_appointments (db : DB) (userId : Nat) (tok : Option String) :
    (ensureSession db userId tok).appointments = db.appointments := by
  unfold ensureSession
  cases tok with
  | none => rfl
  | some s => by_cases h : db.sessions.any (fun x => x.2 == s) <;> simp [h]

theorem ensureSession_chat_messages (db : DB) (userId : Nat) (tok : Option String) :
    (ensureSession db userId tok).chat_messages = db.chat_messages := by
  unfold ensureSession
  cases tok with
  | none => rfl
  | some s => by_cases h : db.sessions.any (fun x => x.2 == s) <;> simp [h]

theorem logMessage_appointments (db : DB) (ok : Bool) (m : ChatMessage) :
    (logMessage db ok m).appointments = db.appointments := by
  unfold logMessage
  cases ok <;> rfl

theorem upsertUser_sessions (db : DB) (sub : String) :
    (upsertUser db sub).2.sessions = db.sessions := by
  unfold upsertUser
  cases db.users.find? (fun u => u.2 == demoEmail sub) <;> rfl

theorem ensureSession_users (db : DB) (userId : Nat) (tok : Option String) :
    (ensureSession db userId tok).users = db.users := by
  unfold ensureSession
  cases tok with
  | none => rfl
  | some s => by_cases h : db.sessions.any (fun x => x.2 == s) <;> simp [h]

theorem logMessage_users (db : DB) (ok : Bool) (m : ChatMessage) :
    (logMessage db ok m).users = db.users := by
  unfold logMessage
  cases ok <;> rfl

theorem logMessage_sessions (db : DB) (ok : Bool) (m : ChatMessage) :
    (logMessage db ok m).sessions = db.sessions := by
  unfold logMessage
  cases ok <;> rfl

theorem logMessage_true_chat_messages (db : DB) (m : ChatMessage) :
    (logMessage db true m).chat_messages = db.chat_messages ++ [m] := by
  rfl

theorem existsConfirmedAt_false_iff (db : DB) (t : Nat) :
    existsConfirmedAt db t = false ↔ countConfirmedAt db t = 0 := by
  simp [existsConfirmedAt]

theorem existsConfirmedAt_true_iff (db : DB) (t : Nat) :
    existsConfirmedAt db t = true ↔ 1 ≤ countConfirmedAt db t := by
  simp [existsConfirmedAt]
  omega

theorem existsConfirmedAt_ext (db db' : DB) (t : Nat)
    (h : db'.appointments = db.appointments) :
    existsConfirmedAt db' t = existsConfirmedAt db t := by
  simp [existsConfirmedAt, countConfirmedAt, confirmedAt, h]

theorem countConfirmedAt_insertConfirmed (db : DB) (uid t : Nat) :
    countConfirmedAt (insertConfirmed db uid t).2 t = countConfirmedAt db t + 1 := by
  simp [insertConfirmed, countConfirmedAt, confirmedAt, List.filter_append]

theorem countConfirmedAt_ext (db db' : DB) (t : Nat)
    (h : db'.appointments = db.appointments) :
    countConfirmedAt db' t = countConfirmedAt db t := by
  simp [countConfirmedAt, confirmedAt, h]

theorem confirmedOnly_ext (db db' : DB) (h : db'.appointments = db.appointments) :
    confirmedOnly db' = confirmedOnly db := by
  simp [confirmedOnly, h]

theorem confirmedDistinct_ext (db db' : DB) (h : db'.appointments = db.appointments)
    (hd : confirmedDistinct db) : confirmedDistinct db' := by
  unfold confirmedDistinct at *
  rwa [confirmedOnly_ext db db' h]

theorem confirmedDistinct_append (db db' : DB) (row : Appointment)
    (happ : db'.appointments = db.appointments ++ [row])
    (hrow : row.status = ApptStatus.confirmed)
    (hfree : existsConfirmedAt db row.scheduled_at = false)
    (hinv : confirmedDistinct db) :
    confirmedDistinct db' := by
  have hcount := (existsConfirmedAt_false_iff db row.scheduled_at).mp hfree
  have hnil : confirmedAt db row.scheduled_at = [] := by
    unfold countConfirmedAt at hcount
    exact List.length_eq_zero.mp hcount
  unfold confirmedDistinct confirmedOnly at *
  rw [happ, List.filter_append, List.pairwise_append]
  refine ⟨hinv, by simp [hrow], ?_⟩
  intro a ha b hb
  have hb' : b = row := by
    simp [hrow] at hb
    exact hb
  have ham : a ∈ db.appointments := (List.mem_filter.mp ha).1
  have hac : (a.status == ApptStatus.confirmed) = true := (List.mem_filter.mp ha).2
  intro heq
  rw [hb'] at heq
  have hmem : a ∈ confirmedAt db row.scheduled_at := by
    unfold confirmedAt
    refine List.mem_filter.mpr ⟨ham, ?_⟩
    simp [heq]
    simpa using hac
  rw [hnil] at hmem
  simp at hmem

theorem find?_reverse_eq_getLast?_filter {α : Type} (p : α → Bool) (l : List α) :
    l.reverse.find? p = (l.filter p).getLast? := by
  induction l using List.reverseRecOn with
  | nil => rfl
  | append_singleton xs x ih =>
      rw [List.reverse_append, List.reverse_singleton, List.singleton_append]
      cases hx : p x with
      | true =>
          rw [List.find?_cons_of_pos _ hx]
          simp [List.filter_append, hx]
      | false =>
          rw [List.find?_cons_of_neg _ (by simp [hx])]
          rw [ih]
          have hfx : List.filter p [x] = [] := by simp [hx]
          rw [List.filter_append, hfx, List.append_nil]

theorem countP_set_eq (p : ReqPhase → Bool) :
    ∀ (l : List ReqPhase) (i : Nat) (x ph : ReqPhase), l[i]? = some ph →
      (l.set i x).countP p + (if p ph then 1 else 0) =
        l.countP p + (if p x then 1 else 0) := by
  intro l
  induction l with
  | nil =>
      intro i x ph h
      simp at h
  | cons a l ih =>
      intro i x ph h
      cases i with
      | zero =>
          simp at h
          subst h
          simp [List.set, List.countP_cons]
          omega
      | succ n =>
          simp at h
          have hrec := ih n x ph h
          simp [List.set, List.countP_cons]
          omega

theorem confirmHandler_of_validate_error (parse : String → Option Nat) (now : Nat)
    (appendOk : Bool) (sub : String) (req : ConfirmReq) (db : DB) (m : String)
    (h : confirmValidate parse now req = Except.error m) :
    confirmHandler parse now appendOk sub req db =
      { result := ConfirmResult.badRequest m, db := db, trace := [] } := by
  unfold confirmHandler
  rw [h]

/-!
Claim theorems.
-/

/-- Claim C9: when the generative backend fails, the extraction call does
not propagate the error: langchain_extract_and_reply always answers with an
ok result, and on a backend error the answer is exactly the deterministic
fallback result. -/
theorem c9_generative_fallback (naive : String → ExtractionResult)
    (llmOutcome : Except String ExtractionResult) (message : String) :
    (∃ r, langchain_extract_and_reply naive llmOutcome message = Except.ok r) ∧
    (∀ e, langchain_extract_and_reply naive (Except.error e) message =
        Except.ok (naive message)) := by
  constructor
  · cases llmOutcome with
    | ok r => exact ⟨_, rfl⟩
    | error e => exact ⟨_, rfl⟩
  · intro e
    rfl

/-- Claim C5, counterexample: on a history whose most recent
candidate-bearing assistant turn carries needs_confirmation = false, the
reconstruction the code performs (latestProposal) returns that turn,
while the spec rule (most recent turn with needs_confirmation = true)
designates the earlier turn with a different candidate, so the claim
fails as stated. -/
theorem c5_counterexample :
    latestProposal [proposalMsgA, candidateMsgB] = some candidateMsgB ∧
    pendingProposalSpec [proposalMsgA, candidateMsgB] = some proposalMsgA ∧
    candidateMsgB.meta ≠ proposalMsgA.meta := by
  decide

/-- Claim C5, amended: the pending proposal is the candidate attached to
the most recent assistant turn carrying a non-null appointment candidate
(needs_confirmation is not consulted), computed by a linear scan backward
from the end of the turn sequence; being a pure function of the history,
recomputing it with no intervening writes yields the same candidate. -/
theorem c5_amended (messages : List UiMessage) :
    latestProposal messages = (messages.filter hasCandidate).getLast? ∧
    ∀ m, latestProposal messages = some m → hasCandidate m = true := by
  constructor
  · unfold latestProposal
    exact find?_reverse_eq_getLast?_filter hasCandidate messages
  · intro m hm
    unfold latestProposal at hm
    exact List.find?_some hm

/-- Claim C6, counterexample: after a decline the backward-scan
reconstruction still returns the pre-decline proposal (under the
predicate used by the code and also under the spec rule), because the
decline only appends a turn and erases nothing. -/
theorem c6_counterexample :
    latestProposal (declineTranscript [proposalMsgA]) = some proposalMsgA ∧
    pendingProposalSpec (declineTranscript [proposalMsgA]) = some proposalMsgA := by
  decide

/-- Claim C6, amended: processing a decline appends a decline turn that
carries no appointment candidate, after which the confirmation bar
(driven by the last turn alone) is hidden; but the pending-proposal
reconstruction over the declined transcript is unchanged, so a
reconstruction after the decline still sees the pending proposal from
before it. -/
theorem c6_amended (h : List UiMessage) :
    latestProposal (declineTranscript h) = latestProposal h ∧
    showConfirmationBar (declineTranscript h) = false ∧
    hasCandidate frontendDeclineMessage = false := by
  refine ⟨?_, ?_, by decide⟩
  · unfold declineTranscript latestProposal
    rw [List.reverse_append, List.reverse_singleton, List.singleton_append]
    rw [List.find?_cons_of_neg _ (by decide)]
  · unfold declineTranscript showConfirmationBar
    rw [List.getLast?_concat]
    decide

/-- Claim C4: a confirm request whose scheduled_at is missing, fails to
parse as an instant, or is not strictly in the future is rejected by the
validation prefix with a 400 bad-request outcome, never as Conflict; the
datastore is unchanged and no appointments-table operation is performed,
so no appointment is created. -/
theorem c4_validation_rejects (parse : String → Option Nat) (now : Nat)
    (appendOk : Bool) (sub : String) (req : ConfirmReq) (db : DB)
    (h : (req.scheduled_at.getD "") = "" ∨ parse (req.scheduled_at.getD "") = none ∨
         ∀ t, parse (req.scheduled_at.getD "") = some t → t ≤ now) :
    (∃ m, (confirmHandler parse now appendOk sub req db).result = ConfirmResult.badRequest m) ∧
    (confirmHandler parse now appendOk sub req db).result.httpStatus = 400 ∧
    (confirmHandler parse now appendOk sub req db).result ≠ ConfirmResult.conflict ∧
    (confirmHandler parse now appendOk sub req db).db = db ∧
    (confirmHandler parse now appendOk sub req db).trace = [] := by
  obtain ⟨m, hm⟩ : ∃ m, confirmValidate parse now req = Except.error m := by
    unfold confirmValidate
    by_cases h1 : (req.session_id.getD "") = "" ∨ (req.scheduled_at.getD "") = ""
    · exact ⟨_, by rw [if_pos h1]⟩
    · rw [if_neg h1]
      cases hp : parse (req.scheduled_at.getD "") with
      | none => exact ⟨_, rfl⟩
      | some t =>
          have hs : ¬ (req.scheduled_at.getD "") = "" := fun hc => h1 (Or.inr hc)
          have ht : t ≤ now := by
            rcases h with h | h | h
            · exact absurd h hs
            · rw [h] at hp
              simp at hp
            · exact h t hp
          exact ⟨"Appointment time must be in the future", by simp [ht]⟩
  rw [confirmHandler_of_validate_error parse now appendOk sub req db m hm]
  exact ⟨⟨m, rfl⟩, rfl, fun hc => ConfirmResult.noConfusion hc, rfl, rfl⟩

/-- Claim C4, witness at a concrete input with a missing scheduled_at. -/
theorem c4_witness :
    (confirmHandler parseDemo 0 true "user_1"
        { session_id := some ("sess-1"), scheduled_at := none, confirm := true }
        emptyDB).result.httpStatus = 400 ∧
    (confirmHandler parseDemo 0 true "user_1"
        { session_id := some ("sess-1"), scheduled_at := none, confirm := true }
        emptyDB).db = emptyDB ∧
    (confirmHandler parseDemo 0 true "user_1"
        { session_id := some ("sess-1"), scheduled_at := none, confirm := true }
        emptyDB).trace = [] :=
  ⟨(c4_validation_rejects parseDemo 0 true "user_1"
      { session_id := some ("sess-1"), scheduled_at := none, confirm := true }
      emptyDB (Or.inl rfl)).2.1,
   (c4_validation_rejects parseDemo 0 true "user_1"
      { session_id := some ("sess-1"), scheduled_at := none, confirm := true }
      emptyDB (Or.inl rfl)).2.2.2.1,
   (c4_validation_rejects parseDemo 0 true "user_1"
      { session_id := some ("sess-1"), scheduled_at := none, confirm := true }
      emptyDB (Or.inl rfl)).2.2.2.2⟩

/-- Claim C10, counterexample: a decline arriving with a fresh session
runs the user upsert and the session creation before the decline branch
and so inserts a users row and a chat_sessions row — state changes
besides the appended assistant message; and with the chat append failing
(logMessage swallows the failure) a decline still answers declined while
changing nothing at all, not even the one message. -/
theorem c10_counterexample :
    (confirmHandler parseDemo 0 true "user_1" declineReqDemo emptyDB).result =
      ConfirmResult.declined ∧
    (confirmHandler parseDemo 0 true "user_1" declineReqDemo emptyDB).db.users ≠
      emptyDB.users ∧
    (confirmHandler parseDemo 0 true "user_1" declineReqDemo emptyDB).db.sessions ≠
      emptyDB.sessions ∧
    (confirmHandler parseDemo 0 false "user_1" declineReqDemo dbWithUserSession).result =
      ConfirmResult.declined ∧
    (confirmHandler parseDemo 0 false "user_1" declineReqDemo dbWithUserSession).db =
      dbWithUserSession := by
  decide

/-- Claim C10, amended: every decline that passes validation performs no
appointments-table operation (empty trace) and leaves the appointments
of every status exactly unchanged.  Its state changes are: the assistant
decline message recording the declined proposal, appended exactly when
its insert succeeds (logMessage swallows the failure, appending
nothing); plus the user upsert and the session creation run before the
decline branch, which change nothing exactly when the demo user and the
session row already exist. -/
theorem c10_decline_frame (parse : String → Option Nat) (now : Nat) (appendOk : Bool)
    (sub : String) (req : ConfirmReq) (db : DB) (t : Nat)
    (hval : confirmValidate parse now req = Except.ok t)
    (hdecl : req.confirm = false) :
    (confirmHandler parse now appendOk sub req db).result = ConfirmResult.declined ∧
    (confirmHandler parse now appendOk sub req db).trace = [] ∧
    (confirmHandler parse now appendOk sub req db).db.appointments = db.appointments ∧
    (appendOk = true →
      (confirmHandler parse now appendOk sub req db).db.chat_messages =
        db.chat_messages ++ [declineChatMessage (upsertUser db sub).1
          (req.session_id.getD "") (req.scheduled_at.getD "")]) ∧
    (appendOk = false →
      (confirmHandler parse now appendOk sub req db).db.chat_messages =
        db.chat_messages) ∧
    ((∃ u, db.users.find? (fun x => x.2 == demoEmail sub) = some u) →
      (confirmHandler parse now appendOk sub req db).db.users = db.users) ∧
    (∀ tok, req.session_id = some tok →
      db.sessions.any (fun s => s.2 == tok) = true →
      (confirmHandler parse now appendOk sub req db).db.sessions = db.sessions) := by
  have hout : ∀ ok : Bool, confirmHandler parse now ok sub req db =
      { result := ConfirmResult.declined,
        db := logMessage (ensureSession (upsertUser db sub).2 (upsertUser db sub).1
          req.session_id) ok (declineChatMessage (upsertUser db sub).1
          (req.session_id.getD "") (req.scheduled_at.getD "")),
        trace := [] } := by
    intro ok
    unfold confirmHandler
    rw [hval]
    simp [hdecl]
  rw [hout appendOk]
  refine ⟨rfl, rfl, ?_, ?_, ?_, ?_, ?_⟩
  · simp [logMessage_appointments, ensureSession_appointments, upsertUser_appointments]
  · intro ha
    subst ha
    simp [logMessage, ensureSession_chat_messages, upsertUser_chat_messages]
  · intro ha
    subst ha
    simp [logMessage, ensureSession_chat_messages, upsertUser_chat_messages]
  · rintro ⟨u, hu⟩
    have hup : upsertUser db sub = (u.1, db) := by
      unfold upsertUser
      rw [hu]
    simp [logMessage_users, ensureSession_users, hup]
  · intro tok htok hsess
    have hses2 : (upsertUser db sub).2.sessions = db.sessions := upsertUser_sessions db sub
    rw [htok]
    simp only [logMessage_sessions]
    unfold ensureSession
    simp [hses2, hsess]

/-- Claim C10, witness at a concrete decline request on a datastore that
already holds the demo user and session, with the chat append
succeeding. -/
theorem c10_witness :
    (confirmHandler parseDemo 0 true "user_1" declineReqDemo dbWithUserSession).result =
      ConfirmResult.declined ∧
    (confirmHandler parseDemo 0 true "user_1" declineReqDemo dbWithUserSession).trace = [] ∧
    (confirmHandler parseDemo 0 true "user_1" declineReqDemo
      dbWithUserSession).db.appointments = dbWithUserSession.appointments ∧
    (confirmHandler parseDemo 0 true "user_1" declineReqDemo
      dbWithUserSession).db.chat_messages = dbWithUserSession.chat_messages ++
        [declineChatMessage (upsertUser dbWithUserSession "user_1").1
          (declineReqDemo.session_id.getD "") (declineReqDemo.scheduled_at.getD "")] ∧
    (confirmHandler parseDemo 0 true "user_1" declineReqDemo dbWithUserSession).db.users =
      dbWithUserSession.users ∧
    (confirmHandler parseDemo 0 true "user_1" declineReqDemo
      dbWithUserSession).db.sessions = dbWithUserSession.sessions := by
  have h := c10_decline_frame parseDemo 0 true "user_1" declineReqDemo dbWithUserSession
    100 (by rfl) rfl
  exact ⟨h.1, h.2.1, h.2.2.1, h.2.2.2.1 rfl,
    h.2.2.2.2.2.1 ⟨(1, "user_1@demo.local"), by decide⟩,
    h.2.2.2.2.2.2 ("sess-1") rfl (by decide)⟩

/-- Claim C7, counterexample: when the call to the Python service fails,
the handler has already appended the user turn and returns the 500
outcome without appending any assistant turn, so the processed message
leaves a user turn in the transcript with no corresponding assistant
turn. -/
theorem c7_counterexample :
    (messageHandler (Except.error ()) true true "user_1" msgReqDemo emptyDB).1 =
      MsgResult.serverError ∧
    (messageHandler (Except.error ()) true true "user_1" msgReqDemo emptyDB).2.chat_messages.map
      ChatMessage.role = ["user"] := by
  decide

/-- Claim C7, amended: on the success path — the Python service answered
and both chat appends succeed — the handler returns the extraction data
and appends exactly two turns, the user turn followed by the assistant
turn; when the Python service call fails, only the user turn has been
appended and the handler returns the 500 outcome. -/
theorem c7_two_turns (data : PyData) (sub : String) (req : MsgReq) (db : DB)
    (hmsg : ¬ strTrim (req.message.getD "") = "") :
    ((messageHandler (Except.ok data) true true sub req db).1 = MsgResult.ok data ∧
     ∃ u a : ChatMessage,
       (messageHandler (Except.ok data) true true sub req db).2.chat_messages =
         db.chat_messages ++ [u, a] ∧ u.role = "user" ∧ a.role = "assistant") ∧
    ((messageHandler (Except.error ()) true true sub req db).1 = MsgResult.serverError ∧
     ∃ u : ChatMessage,
       (messageHandler (Except.error ()) true true sub req db).2.chat_messages =
         db.chat_messages ++ [u] ∧ u.role = "user") := by
  constructor
  · constructor
    · simp [messageHandler, hmsg]
    · refine ⟨{ user_id := (upsertUser db sub).1, session_token := req.session_id.getD "",
                role := "user", content := strTrim (req.message.getD ""), meta := {} },
              { user_id := (upsertUser db sub).1, session_token := req.session_id.getD "",
                role := "assistant",
                content := data.reply.getD "I apologize, I could not process that request.",
                meta := assistantMeta data }, ?_, rfl, rfl⟩
      simp [messageHandler, hmsg, logMessage, ensureSession_chat_messages,
        upsertUser_chat_messages]
  · constructor
    · simp [messageHandler, hmsg]
    · refine ⟨{ user_id := (upsertUser db sub).1, session_token := req.session_id.getD "",
                role := "user", content := strTrim (req.message.getD ""), meta := {} },
              ?_, rfl⟩
      simp [messageHandler, hmsg, logMessage, ensureSession_chat_messages,
        upsertUser_chat_messages]

/-- Claim C7, witness at a concrete message request. -/
theorem c7_witness :
    (messageHandler (Except.ok pyDataDemo) true true "user_1" msgReqDemo emptyDB).1 =
      MsgResult.ok pyDataDemo ∧
    (messageHandler (Except.error ()) true true "user_1" msgReqDemo emptyDB).1 =
      MsgResult.serverError :=
  ⟨(c7_two_turns pyDataDemo "user_1" msgReqDemo emptyDB (by decide)).1.1,
   (c7_two_turns pyDataDemo "user_1" msgReqDemo emptyDB (by decide)).2.1⟩

/-- Claim C8, counterexample: with the chat append of the user turn
failing (logMessage swallows the error), the message request still
reports success (HTTP 200 with the extraction data) although the turn was
never durably appended — the transcript afterwards holds only the
assistant turn. -/
theorem c8_counterexample :
    (messageHandler (Except.ok pyDataDemo) false true "user_1" msgReqDemo emptyDB).1 =
      MsgResult.ok pyDataDemo ∧
    (messageHandler (Except.ok pyDataDemo) false true "user_1" msgReqDemo emptyDB).1.httpStatus
      = 200 ∧
    (messageHandler (Except.ok pyDataDemo) false true "user_1" msgReqDemo emptyDB).2.chat_messages.map
      ChatMessage.role = ["assistant"] := by
  decide

/-- Claim C8, amended: failures of the chat-turn appends are swallowed by
logMessage and never change the reported outcome of either handler, so a
request can claim success although a turn append did not durably happen;
failures of the awaited datastore queries themselves — the user upsert,
the session lookup/creation, the conflict pre-check SELECT and the
appointment INSERT — are caught by the try/catch and produce the generic
500 server-error outcome, never success; a reported successful
confirmation implies the appointment INSERT succeeded and the committed
row is durably present; and with every query succeeding the fallible
handlers coincide with the plain ones. -/
theorem c8_append_failures_swallowed :
    (∀ (pyResp : Except Unit PyData) (q : QueryOutcomes) (userOk asstOk : Bool)
        (sub : String) (req : MsgReq) (db : DB),
      (messageHandlerTry pyResp q userOk asstOk sub req db).1 =
        (messageHandlerTry pyResp q true true sub req db).1) ∧
    (∀ (parse : String → Option Nat) (now : Nat) (q : QueryOutcomes) (appendOk : Bool)
        (sub : String) (req : ConfirmReq) (db : DB),
      (confirmHandlerTry parse now q appendOk sub req db).result =
        (confirmHandlerTry parse now q true sub req db).result) ∧
    (∀ (pyResp : Except Unit PyData) (q : QueryOutcomes) (userOk asstOk : Bool)
        (sub : String) (req : MsgReq) (db : DB),
      ¬ strTrim (req.message.getD "") = "" →
      (q.upsertOk = false ∨ q.sessionOk = false) →
      (messageHandlerTry pyResp q userOk asstOk sub req db).1 = MsgResult.serverError) ∧
    (∀ (parse : String → Option Nat) (now : Nat) (q : QueryOutcomes) (appendOk : Bool)
        (sub : String) (req : ConfirmReq) (db : DB) (t : Nat),
      confirmValidate parse now req = Except.ok t →
      (q.upsertOk = false ∨ q.sessionOk = false ∨
        (req.confirm = true ∧ (q.selectOk = false ∨
          (existsConfirmedAt db t = false ∧ q.insertOk = false)))) →
      (confirmHandlerTry parse now q appendOk sub req db).result =
        ConfirmResult.serverError) ∧
    (∀ (parse : String → Option Nat) (now : Nat) (q : QueryOutcomes) (appendOk : Bool)
        (sub : String) (req : ConfirmReq) (db : DB) (a : Appointment),
      (confirmHandlerTry parse now q appendOk sub req db).result =
        ConfirmResult.confirmedOk a →
      q.insertOk = true ∧
        a ∈ (confirmHandlerTry parse now q appendOk sub req db).db.appointments) ∧
    (∀ (parse : String → Option Nat) (now : Nat) (appendOk : Bool) (sub : String)
        (req : ConfirmReq) (db : DB),
      confirmHandlerTry parse now {} appendOk sub req db =
        confirmHandler parse now appendOk sub req db) ∧
    (∀ (pyResp : Except Unit PyData) (userOk asstOk : Bool) (sub : String)
        (req : MsgReq) (db : DB),
      messageHandlerTry pyResp {} userOk asstOk sub req db =
        messageHandler pyResp userOk asstOk sub req db) := by
  refine ⟨?_, ?_, ?_, ?_, ?_, ?_, ?_⟩
  · intro pyResp q userOk asstOk sub req db
    unfold messageHandlerTry
    by_cases hm : strTrim (req.message.getD "") = ""
    · simp [hm]
    · by_cases h1 : q.upsertOk = false
      · simp [hm, h1]
      · by_cases h2 : q.sessionOk = false
        · simp [hm, h1, h2]
        · cases pyResp <;> simp [hm, h1, h2]
  · intro parse now q appendOk sub req db
    unfold confirmHandlerTry
    cases hv : confirmValidate parse now req with
    | error m => rfl
    | ok t =>
        by_cases h1 : q.upsertOk = false
        · simp [h1]
        · by_cases h2 : q.sessionOk = false
          · simp [h1, h2]
          · by_cases hc : req.confirm = false
            · simp [h1, h2, hc]
            · by_cases h3 : q.selectOk = false
              · simp [h1, h2, hc, h3]
              · by_cases he : existsConfirmedAt
                    (ensureSession (upsertUser db sub).2 (upsertUser db sub).1
                      req.session_id) t = true
                · simp [h1, h2, hc, h3, he]
                · by_cases h4 : q.insertOk = false
                  · simp [h1, h2, hc, h3, he, h4]
                  · simp [h1, h2, hc, h3, he, h4]
  · intro pyResp q userOk asstOk sub req db hm hq
    unfold messageHandlerTry
    rcases hq with h1 | h1
    · simp [hm, h1]
    · by_cases h0 : q.upsertOk = false
      · simp [hm, h0]
      · simp [hm, h0, h1]
  · intro parse now q appendOk sub req db t hval hq
    unfold confirmHandlerTry
    rw [hval]
    rcases hq with h1 | h1 | ⟨hc, h1 | ⟨hfree, h1⟩⟩
    · simp [h1]
    · by_cases h0 : q.upsertOk = false
      · simp [h0]
      · simp [h0, h1]
    · have hc' : ¬ req.confirm = false := by
        simp [hc]
      by_cases h0 : q.upsertOk = false
      · simp [h0]
      · by_cases h0' : q.sessionOk = false
        · simp [h0, h0']
        · simp [h0, h0', hc', h1]
    · have hc' : ¬ req.confirm = false := by
        simp [hc]
      have hfree2 : existsConfirmedAt
          (ensureSession (upsertUser db sub).2 (upsertUser db sub).1 req.session_id) t
            = false := by
        rw [existsConfirmedAt_ext db _ t
          (by simp [ensureSession_appointments, upsertUser_appointments])]
        exact hfree
      by_cases h0 : q.upsertOk = false
      · simp [h0]
      · by_cases h0' : q.sessionOk = false
        · simp [h0, h0']
        · by_cases h3 : q.selectOk = false
          · simp [h0, h0', hc', h3]
          · simp [h0, h0', hc', h3, hfree2, h1]
  · intro parse now q appendOk sub req db a hres
    unfold confirmHandlerTry at hres ⊢
    cases hv : confirmValidate parse now req with
    | error m =>
        rw [hv] at hres
        simp at hres
    | ok t =>
        rw [hv] at hres
        by_cases h1 : q.upsertOk = false
        · simp [h1] at hres
        · by_cases h2 : q.sessionOk = false
          · simp [h1, h2] at hres
          · by_cases hc : req.confirm = false
            · simp [h1, h2, hc] at hres
            · by_cases h3 : q.selectOk = false
              · simp [h1, h2, hc, h3] at hres
              · by_cases he : existsConfirmedAt
                    (ensureSession (upsertUser db sub).2 (upsertUser db sub).1
                      req.session_id) t = true
                · simp [h1, h2, hc, h3, he] at hres
                · by_cases h4 : q.insertOk = false
                  · simp [h1, h2, hc, h3, he, h4] at hres
                  · refine ⟨by simpa using h4, ?_⟩
                    simp [h1, h2, hc, h3, he, h4, insertConfirmed, logMessage]
                      at hres ⊢
                    cases appendOk <;> simp <;> rw [← hres] <;> simp
  · intro parse now appendOk sub req db
    unfold confirmHandlerTry confirmHandler
    cases confirmValidate parse now req <;> rfl
  · intro pyResp userOk asstOk sub req db
    unfold messageHandlerTry messageHandler
    by_cases hm : strTrim (req.message.getD "") = ""
    · simp [hm]
    · cases pyResp <;> simp [hm]

/-- Claim C8, witness: a concrete request whose user-upsert query fails
ends in the 500 outcome, and at a concrete successful confirmation the
committed appointment row is present in the datastore. -/
theorem c8_witness :
    (confirmHandlerTry parseDemo 0 { upsertOk := false } true "user_1" confirmReqDemo
      dbWithUserSession).result = ConfirmResult.serverError ∧
    ({ id := 1, user_id := 1, scheduled_at := 100, status := ApptStatus.confirmed,
       notes := "Booked via AI chatbot" } : Appointment) ∈
      (confirmHandlerTry parseDemo 0 {} true "user_1" confirmReqDemo
        dbWithUserSession).db.appointments :=
  ⟨c8_append_failures_swallowed.2.2.2.1 parseDemo 0 { upsertOk := false } true "user_1"
      confirmReqDemo dbWithUserSession 100 (by rfl) (Or.inl rfl),
   (c8_append_failures_swallowed.2.2.2.2.1 parseDemo 0 {} true "user_1" confirmReqDemo
      dbWithUserSession
      { id := 1, user_id := 1, scheduled_at := 100, status := ApptStatus.confirmed,
        notes := "Booked via AI chatbot" } (by decide)).2⟩

theorem messageHandler_appointments (pyResp : Except Unit PyData) (userOk asstOk : Bool)
    (sub : String) (req : MsgReq) (db : DB) :
    (messageHandler pyResp userOk asstOk sub req db).2.appointments = db.appointments := by
  unfold messageHandler
  by_cases hm : strTrim (req.message.getD "") = ""
  · simp [hm]
  · cases pyResp <;>
      simp [hm, logMessage_appointments, ensureSession_appointments, upsertUser_appointments]

theorem confirmHandler_preserves_confirmedDistinct (parse : String → Option Nat)
    (now : Nat) (appendOk : Bool) (sub : String) (req : ConfirmReq) (db : DB)
    (hinv : confirmedDistinct db) :
    confirmedDistinct (confirmHandler parse now appendOk sub req db).db := by
  have hdb2 : (ensureSession (upsertUser db sub).2 (upsertUser db sub).1
      req.session_id).appointments = db.appointments := by
    simp [ensureSession_appointments, upsertUser_appointments]
  have hinv2 : confirmedDistinct
      (ensureSession (upsertUser db sub).2 (upsertUser db sub).1 req.session_id) :=
    confirmedDistinct_ext db _ hdb2 hinv
  unfold confirmHandler
  cases hv : confirmValidate parse now req with
  | error m => exact hinv
  | ok t =>
      by_cases hc : req.confirm = false
      · refine confirmedDistinct_ext db _ ?_ hinv
        simp [hc, logMessage_appointments, ensureSession_appointments, upsertUser_appointments]
      · by_cases he : existsConfirmedAt
            (ensureSession (upsertUser db sub).2 (upsertUser db sub).1 req.session_id) t
        · refine confirmedDistinct_ext db _ ?_ hinv
          simp [hc, he, ensureSession_appointments, upsertUser_appointments]
        · have he' : existsConfirmedAt
              (ensureSession (upsertUser db sub).2 (upsertUser db sub).1 req.session_id) t
                = false := by
            simpa using he
          simp [hc, he]
          refine confirmedDistinct_append
            (ensureSession (upsertUser db sub).2 (upsertUser db sub).1 req.session_id) _
            ((insertConfirmed (ensureSession (upsertUser db sub).2 (upsertUser db sub).1
              req.session_id) (upsertUser db sub).1 t).1) ?_ rfl ?_ hinv2
          · simp [logMessage_appointments, insertConfirmed]
          · exact he'

/-- Claim C1: the uniqueness invariant of the confirmed set — scheduled_at
values of confirmed appointments pairwise distinct — is preserved by
every operation of the negotiation core (message processing,
confirmation, decline), and therefore holds in every datastore state
reachable from the empty datastore through core operations. -/
theorem c1_confirmed_distinct :
    (∀ (op : CoreOp) (db : DB), confirmedDistinct db → confirmedDistinct (applyCoreOp op db)) ∧
    (∀ db : DB, ReachableDB db → confirmedDistinct db) := by
  have hpres : ∀ (op : CoreOp) (db : DB), confirmedDistinct db →
      confirmedDistinct (applyCoreOp op db) := by
    intro op db hdb
    cases op with
    | msg p u a s r =>
        exact confirmedDistinct_ext db _ (messageHandler_appointments p u a s r db) hdb
    | confirmOp pr n ok s r =>
        exact confirmHandler_preserves_confirmedDistinct pr n ok s r db hdb
  refine ⟨hpres, ?_⟩
  intro db h
  induction h with
  | init =>
      simp [confirmedDistinct, confirmedOnly, emptyDB]
  | step op db2 h ih =>
      exact hpres op db2 ih

/-- Claim C1, witness: the invariant holds after a concrete confirmation
applied to the (reachable) empty datastore. -/
theorem c1_witness :
    confirmedDistinct
      (applyCoreOp (CoreOp.confirmOp parseDemo 0 true "user_1" confirmReqDemo) emptyDB) :=
  c1_confirmed_distinct.1 (CoreOp.confirmOp parseDemo 0 true "user_1" confirmReqDemo) emptyDB
    (c1_confirmed_distinct.2 emptyDB ReachableDB.init)

/-- Claim C3, counterexample: the handler does issue an application-level
pre-check SELECT before the INSERT (the trace of a successful concrete
confirmation starts with the conflict-check SELECT), and a request whose
INSERT hits the uniqueness constraint — its pre-check passed before a
competing confirmed row appeared — ends in the generic 500 outcome, not
in Conflict. -/
theorem c3_counterexample :
    (confirmHandler parseDemo 0 true "user_1" confirmReqDemo emptyDB).trace =
      [ApptOp.selectConfirmedAt 100, ApptOp.insertAppt 100] ∧
    (raceStep 100 { db := dbWithConfirmed100, reqs := [ReqPhase.checked] } 0).reqs =
      [ReqPhase.doneServerError] ∧
    ConfirmResult.serverError.httpStatus = 500 ∧
    ConfirmResult.serverError ≠ ConfirmResult.conflict := by
  refine ⟨by decide, by decide, rfl, fun hc => ConfirmResult.noConfusion hc⟩

/-- Claim C3, amended: collision detection is a pre-check SELECT followed
by a separate INSERT, not a single atomic insert-and-interpret-violation
operation.  When the pre-check finds an existing confirmed appointment at
the requested instant, the handler answers Conflict (HTTP 409,
distinguishable from generic failure), creates no appointment, and its
trace is exactly the pre-check SELECT with no INSERT. -/
theorem c3_precheck_conflict (parse : String → Option Nat) (now : Nat)
    (appendOk : Bool) (sub : String) (req : ConfirmReq) (db : DB) (t : Nat)
    (hval : confirmValidate parse now req = Except.ok t)
    (hc : req.confirm = true)
    (hex : existsConfirmedAt db t = true) :
    (confirmHandler parse now appendOk sub req db).result = ConfirmResult.conflict ∧
    (confirmHandler parse now appendOk sub req db).result.httpStatus = 409 ∧
    (confirmHandler parse now appendOk sub req db).db.appointments = db.appointments ∧
    (confirmHandler parse now appendOk sub req db).trace = [ApptOp.selectConfirmedAt t] := by
  have hdb2 : (ensureSession (upsertUser db sub).2 (upsertUser db sub).1
      req.session_id).appointments = db.appointments := by
    simp [ensureSession_appointments, upsertUser_appointments]
  have hex2 : existsConfirmedAt
      (ensureSession (upsertUser db sub).2 (upsertUser db sub).1 req.session_id) t = true := by
    rw [existsConfirmedAt_ext db _ t hdb2]
    exact hex
  have hc' : ¬ req.confirm = false := by
    rw [hc]
    exact fun h => Bool.noConfusion h
  unfold confirmHandler
  rw [hval]
  simp [hc', hex2, hdb2, ConfirmResult.httpStatus]

/-- Claim C3, witness: the amended behaviour at a concrete confirmation
against a datastore that already holds a confirmed appointment at the
requested instant. -/
theorem c3_witness :
    (confirmHandler parseDemo 0 true "user_1" confirmReqDemo dbWithConfirmed100).result =
      ConfirmResult.conflict ∧
    (confirmHandler parseDemo 0 true "user_1" confirmReqDemo dbWithConfirmed100).result.httpStatus
      = 409 ∧
    (confirmHandler parseDemo 0 true "user_1" confirmReqDemo
      dbWithConfirmed100).db.appointments = dbWithConfirmed100.appointments ∧
    (confirmHandler parseDemo 0 true "user_1" confirmReqDemo dbWithConfirmed100).trace =
      [ApptOp.selectConfirmedAt 100] :=
  c3_precheck_conflict parseDemo 0 true "user_1" confirmReqDemo dbWithConfirmed100 100
    (by rfl) rfl (by decide)

theorem countP_allStart (n : Nat) :
    (allStart n).countP (fun ph => ph == ReqPhase.doneConfirmed) = 0 := by
  induction n with
  | zero => rfl
  | succ k ih =>
      unfold allStart at *
      rw [List.replicate_succ, List.countP_cons]
      simp [ih]

theorem raceStep_length (t : Nat) (s : RaceState) (i : Nat) :
    (raceStep t s i).reqs.length = s.reqs.length := by
  unfold raceStep
  cases hg : s.reqs[i]? with
  | none => rfl
  | some ph =>
      cases ph <;> by_cases he : existsConfirmedAt s.db t = true <;> simp [he]

theorem raceInv_step (t : Nat) (s : RaceState) (i : Nat) (h : RaceInv t s) :
    RaceInv t (raceStep t s i) := by
  unfold raceStep
  cases hg : s.reqs[i]? with
  | none => exact h
  | some ph =>
      have hcg : ∀ (x : ReqPhase),
          (s.reqs.set i x).countP (fun p => p == ReqPhase.doneConfirmed) +
            (if (ph == ReqPhase.doneConfirmed) = true then 1 else 0) =
          s.reqs.countP (fun p => p == ReqPhase.doneConfirmed) +
            (if (x == ReqPhase.doneConfirmed) = true then 1 else 0) :=
        fun x => countP_set_eq (fun p => p == ReqPhase.doneConfirmed) s.reqs i x ph hg
      cases ph with
      | start =>
          by_cases he : existsConfirmedAt s.db t = true
          · simp only [he, if_true, ite_true]
            have h1 := hcg ReqPhase.doneConflict
            simp at h1
            exact ⟨by simpa [h1] using h.count_eq, h.count_le,
              fun _ => (existsConfirmedAt_true_iff s.db t).mp he⟩
          · simp only [he, if_false, ite_false]
            have h1 := hcg ReqPhase.checked
            simp at h1
            refine ⟨by simpa [h1] using h.count_eq, h.count_le, ?_⟩
            rintro ⟨p, hmem, hor⟩
            rcases List.mem_or_eq_of_mem_set hmem with hin | heq
            · exact h.losers ⟨p, hin, hor⟩
            · subst heq
              rcases hor with h2 | h2 <;> cases h2
      | checked =>
          by_cases he : existsConfirmedAt s.db t = true
          · simp only [he, if_true, ite_true]
            have h1 := hcg ReqPhase.doneServerError
            simp at h1
            exact ⟨by simpa [h1] using h.count_eq, h.count_le,
              fun _ => (existsConfirmedAt_true_iff s.db t).mp he⟩
          · have he0 : existsConfirmedAt s.db t = false := by
              simpa using he
            have hzero : countConfirmedAt s.db t = 0 :=
              (existsConfirmedAt_false_iff s.db t).mp he0
            have h1 := hcg ReqPhase.doneConfirmed
            simp at h1
            have hceq := h.count_eq
            rw [he0]
            simp only [Bool.false_eq_true, if_false, ite_false]
            refine ⟨?_, ?_, fun _ => ?_⟩ <;> dsimp only <;>
              rw [countConfirmedAt_insertConfirmed] <;> omega
      | doneConfirmed => exact h
      | doneConflict => exact h
      | doneServerError => exact h

theorem raceInv_runRace (t : Nat) (s : RaceState) (sched : List Nat) (h : RaceInv t s) :
    RaceInv t (runRace t s sched) := by
  induction sched generalizing s with
  | nil => exact h
  | cons i rest ih => exact ih (raceStep t s i) (raceInv_step t s i h)

theorem runRace_length (t : Nat) (s : RaceState) (sched : List Nat) :
    (runRace t s sched).reqs.length = s.reqs.length := by
  induction sched generalizing s with
  | nil => rfl
  | cons i rest ih =>
      have : runRace t s (i :: rest) = runRace t (raceStep t s i) rest := rfl
      rw [this, ih, raceStep_length]

theorem raceInv_init (t : Nat) (db0 : DB) (n : Nat) (h : countConfirmedAt db0 t = 0) :
    RaceInv t { db := db0, reqs := allStart n } := by
  refine ⟨?_, ?_, ?_⟩
  · simp [h, countP_allStart]
  · simp [h]
  · rintro ⟨ph, hmem, hor⟩
    have hst := List.eq_of_mem_replicate hmem
    subst hst
    rcases hor with h1 | h1 <;> cases h1

/-- Claim C2, counterexample: two concurrent confirmations of instant 100
from an empty datastore, interleaved pre-check, pre-check, insert,
insert: the first request confirms, but the second ends in the generic
500 server-error outcome — its INSERT hit the uniqueness constraint and
the catch block does not map the violation to Conflict — so the claimed
one-confirmed-and-N-minus-one-Conflict outcome fails at N = 2. -/
theorem c2_counterexample :
    (runRace 100 { db := emptyDB, reqs := allStart 2 } [0, 1, 0, 1]).reqs =
      [ReqPhase.doneConfirmed, ReqPhase.doneServerError] ∧
    ReqPhase.doneServerError ≠ ReqPhase.doneConflict := by
  refine ⟨by decide, fun hc => ReqPhase.noConfusion hc⟩

/-- Claim C2, amended: for every instant, every number of concurrent
confirmations of that instant and every interleaving of their datastore
steps that runs all requests to completion from a state with no confirmed
row at that instant, exactly one request finishes confirmed, exactly one
confirmed row exists at that instant afterwards (the uniqueness
constraint guarantees at most one commit), and every other request
finishes with either Conflict (pre-check after the winning insert) or the
generic server error (its own insert hit the constraint). -/
theorem c2_race_amended (t : Nat) (db0 : DB) (n : Nat) (sched : List Nat)
    (hclean : countConfirmedAt db0 t = 0) (hn : 1 ≤ n)
    (hdone : ∀ ph ∈ (runRace t { db := db0, reqs := allStart n } sched).reqs,
      isDone ph = true) :
    (runRace t { db := db0, reqs := allStart n } sched).reqs.countP
      (fun ph => ph == ReqPhase.doneConfirmed) = 1 ∧
    countConfirmedAt (runRace t { db := db0, reqs := allStart n } sched).db t = 1 ∧
    ∀ ph ∈ (runRace t { db := db0, reqs := allStart n } sched).reqs,
      ph = ReqPhase.doneConfirmed ∨ ph = ReqPhase.doneConflict ∨
        ph = ReqPhase.doneServerError := by
  have hinv := raceInv_runRace t _ sched (raceInv_init t db0 n hclean)
  have hlen : (runRace t { db := db0, reqs := allStart n } sched).reqs.length = n := by
    rw [runRace_length]
    simp [allStart]
  have hall : ∀ ph ∈ (runRace t { db := db0, reqs := allStart n } sched).reqs,
      ph = ReqPhase.doneConfirmed ∨ ph = ReqPhase.doneConflict ∨
        ph = ReqPhase.doneServerError := by
    intro ph hmem
    have hd := hdone ph hmem
    cases ph with
    | start => simp [isDone] at hd
    | checked => simp [isDone] at hd
    | doneConfirmed => exact Or.inl rfl
    | doneConflict => exact Or.inr (Or.inl rfl)
    | doneServerError => exact Or.inr (Or.inr rfl)
  have hceq := hinv.count_eq
  have hcle := hinv.count_le
  by_cases hex : ∃ ph ∈ (runRace t { db := db0, reqs := allStart n } sched).reqs,
      ph = ReqPhase.doneConflict ∨ ph = ReqPhase.doneServerError
  · have h1 := hinv.losers hex
    exact ⟨by omega, by omega, hall⟩
  · have hallc : ∀ ph ∈ (runRace t { db := db0, reqs := allStart n } sched).reqs,
        (ph == ReqPhase.doneConfirmed) = true := by
      intro ph hmem
      rcases hall ph hmem with h1 | h1 | h1
      · simp [h1]
      · exact absurd ⟨ph, hmem, Or.inl h1⟩ hex
      · exact absurd ⟨ph, hmem, Or.inr h1⟩ hex
    have hk : (runRace t { db := db0, reqs := allStart n } sched).reqs.countP
        (fun ph => ph == ReqPhase.doneConfirmed) =
        (runRace t { db := db0, reqs := allStart n } sched).reqs.length :=
      List.countP_eq_length.mpr hallc
    rw [hlen] at hk
    exact ⟨by omega, by omega, hall⟩

/-- Claim C2, witness: the amended race property at two concrete
concurrent confirmations of instant 100. -/
theorem c2_witness :
    (runRace 100 { db := emptyDB, reqs := allStart 2 } [0, 1, 0, 1]).reqs.countP
      (fun ph => ph == ReqPhase.doneConfirmed) = 1 ∧
    countConfirmedAt (runRace 100 { db := emptyDB, reqs := allStart 2 } [0, 1, 0, 1]).db
      100 = 1 :=
  ⟨(c2_race_amended 100 emptyDB 2 [0, 1, 0, 1] (by decide) (by decide) (by decide)).1,
   (c2_race_amended 100 emptyDB 2 [0, 1, 0, 1] (by decide) (by decide) (by decide)).2.1⟩
